import Mathlib

/-!
Verification development for the SEIR epidemic model of src/seir/model.py.

The embedding is shallow: numpy arrays become lists of rationals, time is a
rational number, the dense ODE solution produced by solve_ivp is an abstract
function from time to state rows, and Python exceptions become an explicit
error type threaded through Except.  Every definition below is a direct
transcription of the corresponding lines of the source file; comments cite
the source lines they render.
-/

set_option autoImplicit false

/-- Python runtime errors that the source can raise on the paths we model.
NameError arises from an unbound bare name, AttributeError from a missing
method, ValueError from numpy (ambiguous array truthiness or broadcasting),
and AssertionError from a failed assert statement. -/
inductive PyErr
  | nameError
  | attributeError
  | valueError
  | assertionError
deriving DecidableEq, Repr

/-- A Python value that is either a scalar (int or float) or a numpy
one-dimensional array, as accepted by the scalar-or-vector parameters. -/
inductive PyVal
  | scalar (x : ℚ)
  | array (xs : List ℚ)
deriving DecidableEq, Repr

/-- SEIR._fix_size (source lines 146 to 155): a scalar is broadcast with
np.ones(N) * x; an array must have size exactly N, enforced by an assert. -/
def fix_size (N : ℕ) : PyVal → Except PyErr (List ℚ)
  | .scalar x => .ok (List.replicate N x)
  | .array xs => if xs.length = N then .ok xs else .error .assertionError

/-- Matrix-vector product M @ v of numpy, rows as lists. -/
def matVec (M : List (List ℚ)) (v : List ℚ) : List ℚ :=
  M.map (fun row => (List.zipWith (· * ·) row v).sum)

/-- Vector-matrix product v @ M of numpy: entry j is the dot product of v
with column j of M. The column count is read off the first row, as for a
rectangular numpy array. -/
def npVecMat (v : List ℚ) (M : List (List ℚ)) : List ℚ :=
  (List.range (M.headD []).length).map
    (fun j => (List.zipWith (fun vi row => vi * row.getD j 0) v M).sum)

/-- SEIR._compute_infectivity_matrix (source lines 139 to 144):
normalization = 1 / infectious_period * initial_R0 * population.sum()
/ (population @ contacts_matrix).sum(), which for a per-compartment
infectious period is a length-N vector, and normalization * contacts_matrix
broadcasts that vector across the rows, scaling column j by the j-th entry. -/
def compute_infectivity_matrix (infectious_period : List ℚ) (initial_R0 : ℚ)
    (population : List ℚ) (contacts_matrix : List (List ℚ)) : List (List ℚ) :=
  let normalization := infectious_period.map
    (fun tau => 1 / tau * initial_R0 * population.sum / (npVecMat population contacts_matrix).sum)
  contacts_matrix.map (fun row => List.zipWith (· * ·) normalization row)

/-- Truthiness of a numpy array, as evaluated by the statement
if contacts_matrix: (source line 123).  An array with exactly one element is
truthy when that element is nonzero; any other size raises ValueError, the
ambiguous-truth-value error. -/
def npTruthy (M : List (List ℚ)) : Except PyErr Bool :=
  match M.foldr (fun r acc => r ++ acc) [] with
  | [x] => .ok (decide (x ≠ 0))
  | _ => .error .valueError

/-- The arguments of SEIR.__init__ (source lines 11 to 29).  Compartment
labels are opaque; we use natural numbers.  The restriction and
imported-cases callables play no role at construction and are omitted here;
they appear in the evaluation-time model below. -/
structure InitArgs where
  incubation_period : PyVal
  infectious_period : PyVal
  initial_R0 : ℚ
  hospitalization_probability : PyVal
  hospitalization_duration : PyVal
  hospitalization_lag_from_onset : PyVal
  icu_probability : PyVal
  icu_duration : PyVal
  icu_lag_from_onset : PyVal
  death_probability : PyVal
  death_lag_from_onset : PyVal
  population : PyVal
  compartments : Option (List ℕ)
  contacts_matrix : Option (List (List ℚ))
deriving Repr

/-- The state of a freshly constructed SEIR instance (source lines 96 to
137).  Fields passed through _fix_size are normalized length-N vectors;
the durations and the lags are stored exactly as given (source lines 110,
111, 113, 114, 116), so they remain PyVal. -/
structure SEIRRaw where
  num_compartments : ℕ
  incubation_period : List ℚ
  infectious_period : List ℚ
  initial_R0 : ℚ
  hospitalization_probability : List ℚ
  hospitalization_duration : PyVal
  hospitalization_lag_from_onset : PyVal
  icu_probability : List ℚ
  icu_duration : PyVal
  icu_lag_from_onset : PyVal
  death_probability : List ℚ
  death_lag_from_onset : PyVal
  population : List ℚ
  infectivity_matrix : List (List ℚ)
deriving DecidableEq, Repr

/-- SEIR.__init__ (source lines 96 to 137).  The compartment default, the
calls to _fix_size, the population asserts (lines 117 to 120), the
contact-matrix truthiness test with its shape asserts and all-ones default
(lines 123 to 128), and the infectivity-matrix computation are rendered in
source order.  An n by n numpy array is rectangular, so shape[0] and
shape[1] are the row count and the length of the first row. -/
def SEIR_init (a : InitArgs) : Except PyErr SEIRRaw := do
  let comps : List ℕ := match a.compartments with
    | some (c :: cs) => c :: cs
    | _ => [0]
  let N := comps.length
  let incubation ← fix_size N a.incubation_period
  let infectious ← fix_size N a.infectious_period
  let hosp_prob ← fix_size N a.hospitalization_probability
  let icu_prob ← fix_size N a.icu_probability
  let death_prob ← fix_size N a.death_probability
  let _ ← (match a.population with
    | .scalar _ => if N = 1 then Except.ok () else Except.error PyErr.assertionError
    | .array xs => if xs.length = N then Except.ok () else Except.error PyErr.assertionError)
  let population ← fix_size N a.population
  let contacts : List (List ℚ) ← (match a.contacts_matrix with
    | none => Except.ok (List.replicate N (List.replicate N (1 : ℚ)))
    | some M =>
      match npTruthy M with
      | .error e => Except.error e
      | .ok true =>
        if M.length = N ∧ (M.headD []).length = N then Except.ok M
        else Except.error PyErr.assertionError
      | .ok false => Except.ok (List.replicate N (List.replicate N (1 : ℚ))))
  Except.ok
    { num_compartments := N
      incubation_period := incubation
      infectious_period := infectious
      initial_R0 := a.initial_R0
      hospitalization_probability := hosp_prob
      hospitalization_duration := a.hospitalization_duration
      hospitalization_lag_from_onset := a.hospitalization_lag_from_onset
      icu_probability := icu_prob
      icu_duration := a.icu_duration
      icu_lag_from_onset := a.icu_lag_from_onset
      death_probability := death_prob
      death_lag_from_onset := a.death_lag_from_onset
      population := population
      infectivity_matrix := compute_infectivity_matrix infectious a.initial_R0 population contacts }

/-- The output of a configured restriction function at one time: a float or
a matrix of the same shape as the contacts matrix (docstring, source lines
87 to 93). -/
inductive Restriction
  | scalar (f : ℚ → ℚ)
  | matrix (f : ℚ → List (List ℚ))

/-- The evaluation-time view of a constructed model: the normalized vectors
together with the duration and lag parameters in the scalar form in which
the main path of evaluate_solution consumes them (np.ones on a duration,
time minus a lag), plus the two optional callables. -/
structure SEIRModel where
  num_compartments : ℕ
  incubation_period : List ℚ
  infectious_period : List ℚ
  hospitalization_probability : List ℚ
  hospitalization_duration : ℕ
  hospitalization_lag_from_onset : ℚ
  icu_probability : List ℚ
  icu_duration : ℕ
  icu_lag_from_onset : ℚ
  death_probability : List ℚ
  death_lag_from_onset : ℚ
  population : List ℚ
  infectivity_matrix : List (List ℚ)
  restrictions_function : Option Restriction
  imported_cases_function : Option (ℚ → List ℚ × List ℚ × List ℚ)

/-- SEIR.__call__ (source lines 157 to 180), the derivative law dY/dt.
When a restriction function is configured the source evaluates
restrictions_function(t) with the bare name, not self.restrictions_function;
no global or local of that name exists in the module, so the reference
raises NameError before anything else happens.  Otherwise Y is split into
four equal blocks and the four rate vectors are computed and concatenated;
a configured imported-cases function contributes its three vectors to the
S, E and I rates. -/
def SEIR_call (m : SEIRModel) (t : ℚ) (Y : List ℚ) : Except PyErr (List ℚ) :=
  match m.restrictions_function with
  | some _ => .error .nameError
  | none =>
    let n := Y.length / 4
    let Sa := Y.take n
    let Ea := (Y.drop n).take n
    let Ia := (Y.drop (2 * n)).take n
    let dS := List.zipWith (· * ·)
      (List.zipWith (fun s p => -(s / p)) Sa m.population)
      (matVec m.infectivity_matrix Ia)
    let dE := List.zipWith (fun a b => -a - b) dS
      (List.zipWith (· / ·) Ea m.incubation_period)
    let dI := List.zipWith (· - ·)
      (List.zipWith (· / ·) Ea m.incubation_period)
      (List.zipWith (· / ·) Ia m.infectious_period)
    let dR := List.zipWith (· / ·) Ia m.infectious_period
    match m.imported_cases_function with
    | some f =>
      let (DS, DE, DI) := f t
      .ok (List.zipWith (· + ·) dS DS ++ List.zipWith (· + ·) dE DE ++
           List.zipWith (· + ·) dI DI ++ dR)
    | none => .ok (dS ++ dE ++ dI ++ dR)

/-- np.multiply of a scalar-or-array left operand with a length-N vector,
as used by the probabilities branch of set_initial_state (source lines 189
to 192).  A scalar broadcasts; an array must match the length or have a
single element, else numpy raises a broadcasting ValueError. -/
def npMulPy (x : PyVal) (pop : List ℚ) : Except PyErr (List ℚ) :=
  match x with
  | .scalar c => .ok (pop.map (fun p => c * p))
  | .array xs =>
    if xs.length = pop.length then .ok (List.zipWith (· * ·) xs pop)
    else if xs.length = 1 then .ok (pop.map (fun p => xs.headD 0 * p))
    else .error .valueError

/-- One raw-count input of set_initial_state (source lines 194 to 211).
A scalar input reaches self._fix_sizes(...), a method that does not exist
on the class (the method is _fix_size), so Python raises AttributeError;
an array input is checked against the compartment count by an assert. -/
def rawCountBlock (N : ℕ) : PyVal → Except PyErr (List ℚ)
  | .scalar _ => .error .attributeError
  | .array xs => if xs.length = N then .ok xs else .error .assertionError

/-- SEIR.set_initial_state (source lines 182 to 215): returns the produced
Y0 = concat of S, E, I and an all-zero R block. -/
def set_initial_state (m : SEIRRaw) (pS pE pI : PyVal) (probabilities : Bool) :
    Except PyErr (List ℚ) := do
  let S ← if probabilities then npMulPy pS m.population
          else rawCountBlock m.num_compartments pS
  let E ← if probabilities then npMulPy pE m.population
          else rawCountBlock m.num_compartments pE
  let I ← if probabilities then npMulPy pI m.population
          else rawCountBlock m.num_compartments pI
  let R := List.replicate m.num_compartments (0 : ℚ)
  pure (S ++ E ++ I ++ R)

/-- The closure SEIR_solution produced by simulate (source lines 226 to
233).  sol is the dense interpolant returned by solve_ivp; times with
t >= 0 are evaluated through it in their original order, and the initial
state Y0 is repeated once for every negative query time, prepended as a
block.  np.swapaxes makes the result time-major, one state row per query
time. -/
def SEIR_solution_query (Y0 : List ℚ) (sol : ℚ → List ℚ) (time : List ℚ) :
    List (List ℚ) :=
  List.replicate (time.countP (fun t => decide (t < 0))) Y0 ++
    (time.filter (fun t => decide (0 ≤ t))).map sol

/-- np.convolve(x, w, mode=same) for len(x) >= len(w), the regime of the
source (200 query times against windows of at most 21 days): the output has
the length of x and entry k of it is the full convolution at k + (m-1)/2,
that is the sum over j of x[j] * w[k + (m-1)/2 - j] where the window index
is in range. -/
def npConvolveSame (x w : List ℚ) : List ℚ :=
  let m := w.length
  let off := (m - 1) / 2
  (List.range x.length).map (fun k =>
    ((List.range x.length).map (fun j =>
      if j ≤ k + off ∧ k + off - j < m then x.getD j 0 * w.getD (k + off - j) 0
      else 0)).sum)

/-- np.cumsum(A, axis=0): running vector sums of the rows. -/
def cumsumRowsAux (acc : List ℚ) : List (List ℚ) → List (List ℚ)
  | [] => []
  | r :: rs =>
    let s := if acc.isEmpty then r else List.zipWith (· + ·) acc r
    s :: cumsumRowsAux s rs

/-- np.cumsum along the time axis of a time-major series. -/
def cumsumRows (A : List (List ℚ)) : List (List ℚ) := cumsumRowsAux [] A

/-- Block k of np.split(row, 4, axis=-1): a quarter of the row. -/
def splitBlock (k : ℕ) (row : List ℚ) : List ℚ :=
  let n := row.length / 4
  (row.drop (k * n)).take n

/-- Column i of a time-major series, A[:, i]. -/
def colD (A : List (List ℚ)) (i : ℕ) : List ℚ := A.map (fun r => r.getD i 0)

/-- np.multiply(p, np.divide(row, incubation)): the per-row flow expression
shared by the hospitalization, ICU and death series of evaluate_solution. -/
def rowMulDiv (p incubation row : List ℚ) : List ℚ :=
  List.zipWith (· * ·) p (List.zipWith (· / ·) row incubation)

/-- The tuple returned by SEIR.evaluate_solution (source line 279). -/
structure EvalResult where
  S : List (List ℚ)
  E : List (List ℚ)
  I : List (List ℚ)
  R : List (List ℚ)
  H_active_cases : List (List ℚ)
  ICU_active_cases : List (List ℚ)
  deaths : List (List ℚ)
deriving DecidableEq, Repr

/-- SEIR.evaluate_solution (source lines 237 to 279).  Y0 and sol stand for
the stored initial state and the dense interpolant captured by the
SEIR_solution closure.  Two renderings are deliberate transcriptions of the
source rather than of the spec: the ICU series reads block index 2 of the
lagged state (the I block, source line 262) even though the variable is
named E_icu_lag, and its convolutions use Hwindow, the hospitalization
window (source line 267), while ICUwindow is computed on line 265 and never
used.  The cumulative-infections series is likewise computed by the source
(lines 243 to 244) and dropped from the returned tuple. -/
def evaluate_solution (m : SEIRModel) (Y0 : List ℚ) (sol : ℚ → List ℚ)
    (time : List ℚ) : EvalResult :=
  let SEIR := SEIR_solution_query Y0 sol time
  let S := SEIR.map (splitBlock 0)
  let E := SEIR.map (splitBlock 1)
  let I := SEIR.map (splitBlock 2)
  let R := SEIR.map (splitBlock 3)
  let _Icumulative := cumsumRows (E.map (fun row =>
    List.zipWith (· / ·) row m.incubation_period))
  let Ehl := (SEIR_solution_query Y0 sol
    (time.map (fun t => t - m.hospitalization_lag_from_onset))).map (splitBlock 1)
  let H_new_cases_a_day := Ehl.map
    (rowMulDiv m.hospitalization_probability m.incubation_period)
  let Hwindow := List.replicate m.hospitalization_duration (1 : ℚ)
  let H_active_cases := (List.range time.length).map (fun k =>
    ((List.range m.num_compartments).map (fun i =>
      npConvolveSame (colD H_new_cases_a_day i) Hwindow)).map (fun c => c.getD k 0))
  let E_icu_lag := (SEIR_solution_query Y0 sol
    (time.map (fun t => t - m.icu_lag_from_onset))).map (splitBlock 2)
  let ICU_new_cases_a_day := E_icu_lag.map
    (rowMulDiv m.icu_probability m.incubation_period)
  let _ICUwindow := List.replicate m.icu_duration (1 : ℚ)
  let ICU_active_cases := (List.range time.length).map (fun k =>
    ((List.range m.num_compartments).map (fun i =>
      npConvolveSame (colD ICU_new_cases_a_day i) Hwindow)).map (fun c => c.getD k 0))
  let E_death_lag := (SEIR_solution_query Y0 sol
    (time.map (fun t => t - m.death_lag_from_onset))).map (splitBlock 1)
  let DEATH_new_cases_a_day := E_death_lag.map
    (rowMulDiv m.death_probability m.incubation_period)
  let deaths := cumsumRows DEATH_new_cases_a_day
  ⟨S, E, I, R, H_active_cases, ICU_active_cases, deaths⟩

/-- Modelled from the spec: the active-ICU series exactly as claim C1 and
spec section 4.4 state it, namely the centered same-mode boxcar convolution
with a window of width icu_duration applied to the series
icu_probability * F(t - icu_lag) where F = E / incubation_period, the E
block of the lag-shifted state.  This definition follows the words of the
spec and exists only to be compared with the transcription above. -/
def icu_active_claim (m : SEIRModel) (Y0 : List ℚ) (sol : ℚ → List ℚ)
    (time : List ℚ) : List (List ℚ) :=
  let Elag := (SEIR_solution_query Y0 sol
    (time.map (fun t => t - m.icu_lag_from_onset))).map (splitBlock 1)
  let new_cases := Elag.map (rowMulDiv m.icu_probability m.incubation_period)
  let window := List.replicate m.icu_duration (1 : ℚ)
  (List.range time.length).map (fun k =>
    ((List.range m.num_compartments).map (fun i =>
      npConvolveSame (colD new_cases i) window)).map (fun c => c.getD k 0))


/-- The S rate block of the derivative law, as let-bound in SEIR_call. -/
def rateS (m : SEIRModel) (S I : List ℚ) : List ℚ :=
  List.zipWith (· * ·) (List.zipWith (fun s p => -(s / p)) S m.population)
    (matVec m.infectivity_matrix I)

/-- The E rate block of the derivative law, as let-bound in SEIR_call. -/
def rateE (m : SEIRModel) (S E I : List ℚ) : List ℚ :=
  List.zipWith (fun a b => -a - b) (rateS m S I)
    (List.zipWith (· / ·) E m.incubation_period)

/-- The I rate block of the derivative law, as let-bound in SEIR_call. -/
def rateI (m : SEIRModel) (E I : List ℚ) : List ℚ :=
  List.zipWith (· - ·) (List.zipWith (· / ·) E m.incubation_period)
    (List.zipWith (· / ·) I m.infectious_period)

/-- The R rate block of the derivative law, as let-bound in SEIR_call. -/
def rateR (m : SEIRModel) (I : List ℚ) : List ℚ :=
  List.zipWith (· / ·) I m.infectious_period


/-! Concrete instances used below by witnesses and counterexamples. -/

/-- Claim C1 scenario: one compartment, incubation and infectious periods 1,
ICU probability 1 with lag 0 and duration 1, hospitalization duration 3
with probability 0, so the hospitalization window has width 3 while the ICU
window of the claim has width 1; the trajectory keeps E at 0 and I at 1. -/
def m1c : SEIRModel :=
  { num_compartments := 1, incubation_period := [1], infectious_period := [1],
    hospitalization_probability := [0], hospitalization_duration := 3,
    hospitalization_lag_from_onset := 0, icu_probability := [1],
    icu_duration := 1, icu_lag_from_onset := 0, death_probability := [0],
    death_lag_from_onset := 0, population := [1], infectivity_matrix := [[1]],
    restrictions_function := none, imported_cases_function := none }

/-- Initial state of the C1 scenario: S = 1, E = 0, I = 1, R = 0. -/
def Y01c : List ℚ := [1, 0, 1, 0]

/-- Constant dense solution of the C1 scenario. -/
def sol1c : ℚ → List ℚ := fun _ => [1, 0, 1, 0]

/-- Query grid of the C1 scenario. -/
def time1c : List ℚ := [0, 1, 2, 3, 4]

/-- Base model for the derivative-law theorems: one compartment, population
2, incubation period 4, infectious period 5, infectivity 3. -/
def m7c : SEIRModel :=
  { num_compartments := 1, incubation_period := [4], infectious_period := [5],
    hospitalization_probability := [0], hospitalization_duration := 1,
    hospitalization_lag_from_onset := 0, icu_probability := [0],
    icu_duration := 1, icu_lag_from_onset := 0, death_probability := [0],
    death_lag_from_onset := 0, population := [2], infectivity_matrix := [[3]],
    restrictions_function := none, imported_cases_function := none }

/-- Claim C2 scenario: the base model with a restriction function that
returns 0 at every time, the full-stop restriction of the spec. -/
def m2c : SEIRModel :=
  { m7c with restrictions_function := some (.scalar (fun _ => 0)) }

/-- An imported-cases function injecting 100, 200 and 300 cases per day
into S, E and I. -/
def f8c : ℚ → List ℚ × List ℚ × List ℚ := fun _ => ([100], [200], [300])

/-- Claim C8 scenario: the base model with the imported-cases function. -/
def m8c : SEIRModel := { m7c with imported_cases_function := some f8c }

/-- Claim C3 scenario: two compartments, a hospitalization-duration vector
of length 3, every other parameter well formed. -/
def args3c : InitArgs :=
  { incubation_period := .scalar 3, infectious_period := .scalar 7,
    initial_R0 := 23/10, hospitalization_probability := .scalar (1/100),
    hospitalization_duration := .array [1, 2, 3],
    hospitalization_lag_from_onset := .scalar 6,
    icu_probability := .scalar (1/1000), icu_duration := .scalar 7,
    icu_lag_from_onset := .scalar 21, death_probability := .scalar (1/10),
    death_lag_from_onset := .scalar 27,
    population := .array [1000000, 1000000],
    compartments := some [0, 1], contacts_matrix := none }

/-- A fully scalar one-compartment configuration, the worked example of the
source module with a single compartment. -/
def argsWc : InitArgs :=
  { incubation_period := .scalar 3, infectious_period := .scalar 7,
    initial_R0 := 23/10, hospitalization_probability := .scalar (1/100),
    hospitalization_duration := .scalar 21,
    hospitalization_lag_from_onset := .scalar 6,
    icu_probability := .scalar (1/1000), icu_duration := .scalar 7,
    icu_lag_from_onset := .scalar 21, death_probability := .scalar (1/10),
    death_lag_from_onset := .scalar 27, population := .scalar 1000000,
    compartments := none, contacts_matrix := none }

/-- The constructed model of the scalar configuration argsWc. -/
def mWc : SEIRRaw :=
  { num_compartments := 1, incubation_period := [3], infectious_period := [7],
    initial_R0 := 23/10, hospitalization_probability := [1/100],
    hospitalization_duration := .scalar 21,
    hospitalization_lag_from_onset := .scalar 6,
    icu_probability := [1/1000], icu_duration := .scalar 7,
    icu_lag_from_onset := .scalar 21, death_probability := [1/10],
    death_lag_from_onset := .scalar 27, population := [1000000],
    infectivity_matrix := [[23/70]] }

/-- Claim C4 scenario: two compartments and an explicit all-ones 2 by 2
contact matrix, a valid square nonnegative matrix. -/
def args4c : InitArgs :=
  { incubation_period := .scalar 3, infectious_period := .scalar 7,
    initial_R0 := 23/10, hospitalization_probability := .scalar (1/100),
    hospitalization_duration := .scalar 21,
    hospitalization_lag_from_onset := .scalar 6,
    icu_probability := .scalar (1/1000), icu_duration := .scalar 7,
    icu_lag_from_onset := .scalar 21, death_probability := .scalar (1/10),
    death_lag_from_onset := .scalar 27,
    population := .array [1000000, 1000000],
    compartments := some [0, 1], contacts_matrix := some [[1, 1], [1, 1]] }

/-- Claim C10 scenario: the end-to-end example configuration with one
compartment of population 1000000, in the evaluation-time view. -/
def m10c : SEIRModel :=
  { num_compartments := 1, incubation_period := [3], infectious_period := [7],
    hospitalization_probability := [1/100], hospitalization_duration := 21,
    hospitalization_lag_from_onset := 6, icu_probability := [1/1000],
    icu_duration := 7, icu_lag_from_onset := 21, death_probability := [1/10],
    death_lag_from_onset := 27, population := [1000000],
    infectivity_matrix := [[23/70]],
    restrictions_function := none, imported_cases_function := none }

/-- Initial state of the C10 scenario: fractions 0.99, 0.005, 0.005 of the
population 1000000, R zero. -/
def Y010c : List ℚ := [990000, 5000, 5000, 0]

/-- The ascending daily grid of 200 days starting at t = 0. -/
def time10c : List ℚ := (List.range 200).map (fun k => (k : ℚ))

/-- A concrete dense solution for the C10 counterexample, constant at the
initial state. -/
def sol10c : ℚ → List ℚ := fun _ => Y010c


/-- The compartment count of a configuration, as computed by the first
lines of SEIR.__init__ (source lines 96 to 102): the length of the given
label list when it is truthy, else 1 for the single default compartment. -/
def init_num_compartments (a : InitArgs) : ℕ :=
  (match a.compartments with
   | some (c :: cs) => c :: cs
   | _ => ([0] : List ℕ)).length

/-- The scalar one-compartment configuration argsWc with a length-3
incubation-period vector, which does not match N = 1. -/
def args3f : InitArgs :=
  { incubation_period := .array [1, 2, 3], infectious_period := .scalar 7,
    initial_R0 := 23/10, hospitalization_probability := .scalar (1/100),
    hospitalization_duration := .scalar 21,
    hospitalization_lag_from_onset := .scalar 6,
    icu_probability := .scalar (1/1000), icu_duration := .scalar 7,
    icu_lag_from_onset := .scalar 21, death_probability := .scalar (1/10),
    death_lag_from_onset := .scalar 27, population := .scalar 1000000,
    compartments := none, contacts_matrix := none }


section Helpers

/-- Bind in the Except monad succeeds exactly when both stages succeed. -/
theorem except_bind_ok {α β : Type} {x : Except PyErr α} {f : α → Except PyErr β}
    {b : β} : (x >>= f) = Except.ok b ↔ ∃ a, x = Except.ok a ∧ f a = Except.ok b := by
  cases x <;> simp [Bind.bind, Except.bind]

/-- A successful _fix_size always returns a vector of length N. -/
theorem fix_size_ok_length {N : ℕ} {v : PyVal} {l : List ℚ}
    (h : fix_size N v = .ok l) : l.length = N := by
  cases v with
  | scalar x =>
    simp only [fix_size, Except.ok.injEq] at h
    subst h; simp
  | array xs =>
    simp only [fix_size] at h
    split at h
    · next heq => cases h; exact heq
    · cases h

/-- _fix_size can only fail with the assertion error. -/
theorem fix_size_error {N : ℕ} {v : PyVal} {e : PyErr}
    (h : fix_size N v = .error e) : e = .assertionError := by
  cases v with
  | scalar x => simp [fix_size] at h
  | array xs =>
    simp only [fix_size] at h
    split at h
    · cases h
    · exact (Except.error.inj h).symm

/-- _fix_size broadcasts a scalar to the length-N constant vector. -/
theorem fix_size_scalar (N : ℕ) (x : ℚ) :
    fix_size N (.scalar x) = .ok (List.replicate N x) := rfl

/-- A successful _fix_size on an array returns the array verbatim. -/
theorem fix_size_array_ok {N : ℕ} {xs l : List ℚ}
    (h : fix_size N (.array xs) = .ok l) : l = xs := by
  simp only [fix_size] at h
  split at h
  · exact (Except.ok.inj h).symm
  · cases h

/-- _fix_size on an array of the wrong length fails its assert. -/
theorem fix_size_array_ne {N : ℕ} {xs : List ℚ} (h : xs.length ≠ N) :
    fix_size N (.array xs) = .error .assertionError := by
  simp [fix_size, h]

/-- A bind whose first stage fails propagates the error. -/
theorem bind_error_of_eq {α β : Type} {x : Except PyErr α}
    {f : α → Except PyErr β} (h : x = Except.error PyErr.assertionError) :
    (x >>= f) = Except.error PyErr.assertionError := by
  rw [h]; rfl

/-- Peeling one _fix_size bind when every success continuation fails with
the assertion error. -/
theorem fix_size_bind_error {β : Type} {N : ℕ} {v : PyVal}
    {f : List ℚ → Except PyErr β}
    (h : ∀ l, fix_size N v = .ok l → f l = Except.error PyErr.assertionError) :
    (fix_size N v >>= f) = Except.error PyErr.assertionError := by
  cases hc : fix_size N v with
  | error e => exact congrArg Except.error (fix_size_error hc)
  | ok l => exact h l hc

theorem getD_map_of_lt {α β : Type} (f : α → β) (l : List α) (dα : α) (dβ : β)
    (i : ℕ) (h : i < l.length) : (l.map f).getD i dβ = f (l.getD i dα) := by
  rw [List.getD_eq_getElem?_getD, List.getElem?_map, List.getElem?_eq_getElem h]
  simp [List.getD_eq_getElem?_getD, List.getElem?_eq_getElem h]

theorem getD_zipWith {f : ℚ → ℚ → ℚ} {l₁ l₂ : List ℚ} {i : ℕ}
    (h₁ : i < l₁.length) (h₂ : i < l₂.length) :
    (List.zipWith f l₁ l₂).getD i 0 = f (l₁.getD i 0) (l₂.getD i 0) := by
  rw [List.getD_eq_getElem?_getD, List.getElem?_zipWith,
    List.getElem?_eq_getElem h₁, List.getElem?_eq_getElem h₂]
  simp [List.getD_eq_getElem?_getD, List.getElem?_eq_getElem, h₁, h₂]

theorem getD_matVec {M : List (List ℚ)} {v : List ℚ} {i : ℕ} (h : i < M.length) :
    (matVec M v).getD i 0 = (List.zipWith (· * ·) (M.getD i []) v).sum :=
  getD_map_of_lt _ M [] 0 i h

theorem length_matVec (M : List (List ℚ)) (v : List ℚ) :
    (matVec M v).length = M.length := List.length_map _ _

end Helpers
section CallHelpers

variable {m : SEIRModel} {t : ℚ} {S E I R : List ℚ} {N : ℕ}

theorem concat4_assoc (S E I R : List ℚ) :
    S ++ E ++ I ++ R = S ++ (E ++ (I ++ R)) := by
  simp [List.append_assoc]

theorem take_quarter (hS : S.length = N) (hE : E.length = N) (hI : I.length = N)
    (hR : R.length = N) : (S ++ (E ++ (I ++ R))).length / 4 = N := by
  simp [List.length_append, hS, hE, hI, hR]
  omega

theorem SEIR_call_closed (hS : S.length = N) (hE : E.length = N)
    (hI : I.length = N) (hR : R.length = N)
    (hres : m.restrictions_function = none)
    (himp : m.imported_cases_function = none) :
    SEIR_call m t (S ++ E ++ I ++ R) =
      .ok (rateS m S I ++ rateE m S E I ++ rateI m E I ++ rateR m I) := by
  have hn := take_quarter hS hE hI hR
  have h1 : (S ++ (E ++ (I ++ R))).take N = S := List.take_left' hS
  have h2 : ((S ++ (E ++ (I ++ R))).drop N).take N = E := by
    rw [List.drop_left' hS, List.take_left' hE]
  have h3 : ((S ++ (E ++ (I ++ R))).drop (2 * N)).take N = I := by
    rw [← List.append_assoc, List.drop_left' (by simp [hS, hE]; ring),
      List.take_left' hI]
  rw [concat4_assoc]
  simp only [SEIR_call, hres, himp, hn, h1, h2, h3, rateS, rateE, rateI, rateR]

theorem SEIR_call_imported {f : ℚ → List ℚ × List ℚ × List ℚ}
    {DS DE DI : List ℚ}
    (hS : S.length = N) (hE : E.length = N) (hI : I.length = N)
    (hR : R.length = N) (hres : m.restrictions_function = none)
    (himp : m.imported_cases_function = some f) (hft : f t = (DS, DE, DI)) :
    SEIR_call m t (S ++ E ++ I ++ R) =
      .ok (List.zipWith (· + ·) (rateS m S I) DS ++
           List.zipWith (· + ·) (rateE m S E I) DE ++
           List.zipWith (· + ·) (rateI m E I) DI ++ rateR m I) := by
  have hn := take_quarter hS hE hI hR
  have h1 : (S ++ (E ++ (I ++ R))).take N = S := List.take_left' hS
  have h2 : ((S ++ (E ++ (I ++ R))).drop N).take N = E := by
    rw [List.drop_left' hS, List.take_left' hE]
  have h3 : ((S ++ (E ++ (I ++ R))).drop (2 * N)).take N = I := by
    rw [← List.append_assoc, List.drop_left' (by simp [hS, hE]; ring),
      List.take_left' hI]
  rw [concat4_assoc]
  simp only [SEIR_call, hres, himp, hft, hn, h1, h2, h3, rateS, rateE, rateI, rateR]

theorem length_rateS (hS : S.length = N) (hpop : m.population.length = N)
    (hM : m.infectivity_matrix.length = N) : (rateS m S I).length = N := by
  simp [rateS, List.length_zipWith, length_matVec, hS, hpop, hM]

theorem length_rateE (hS : S.length = N) (hE : E.length = N)
    (hpop : m.population.length = N) (hM : m.infectivity_matrix.length = N)
    (hinc : m.incubation_period.length = N) : (rateE m S E I).length = N := by
  simp [rateE, List.length_zipWith, length_rateS (I := I) hS hpop hM, hE, hinc]

theorem length_rateI (hE : E.length = N) (hI : I.length = N)
    (hinc : m.incubation_period.length = N)
    (hinf : m.infectious_period.length = N) : (rateI m E I).length = N := by
  simp [rateI, List.length_zipWith, hE, hI, hinc, hinf]

theorem length_rateR (hI : I.length = N)
    (hinf : m.infectious_period.length = N) : (rateR m I).length = N := by
  simp [rateR, List.length_zipWith, hI, hinf]

end CallHelpers

section BlockIndex

variable {a b c d : List ℚ} {N i : ℕ}

theorem getD_concat4_0 (ha : a.length = N) (hi : i < N) :
    (a ++ b ++ c ++ d).getD i 0 = a.getD i 0 := by
  rw [concat4_assoc]
  exact List.getD_append a _ 0 i (by omega)

theorem getD_concat4_1 (ha : a.length = N) (hb : b.length = N) (hi : i < N) :
    (a ++ b ++ c ++ d).getD (N + i) 0 = b.getD i 0 := by
  rw [concat4_assoc, List.getD_append_right a _ 0 (N + i) (by omega)]
  have : N + i - a.length = i := by omega
  rw [this]
  exact List.getD_append b _ 0 i (by omega)

theorem getD_concat4_2 (ha : a.length = N) (hb : b.length = N)
    (hc : c.length = N) (hi : i < N) :
    (a ++ b ++ c ++ d).getD (2 * N + i) 0 = c.getD i 0 := by
  rw [concat4_assoc, List.getD_append_right a _ 0 (2 * N + i) (by omega)]
  have h1 : 2 * N + i - a.length = N + i := by omega
  rw [h1, List.getD_append_right b _ 0 (N + i) (by omega)]
  have h2 : N + i - b.length = i := by omega
  rw [h2]
  exact List.getD_append c _ 0 i (by omega)

theorem getD_concat4_3 (ha : a.length = N) (hb : b.length = N)
    (hc : c.length = N) (hi : i < N) :
    (a ++ b ++ c ++ d).getD (3 * N + i) 0 = d.getD i 0 := by
  rw [concat4_assoc, List.getD_append_right a _ 0 (3 * N + i) (by omega)]
  have h1 : 3 * N + i - a.length = 2 * N + i := by omega
  rw [h1, List.getD_append_right b _ 0 (2 * N + i) (by omega)]
  have h2 : 2 * N + i - b.length = N + i := by omega
  rw [h2, List.getD_append_right c _ 0 (N + i) (by omega)]
  have h3 : N + i - c.length = i := by omega
  rw [h3]

end BlockIndex

section RateFormulas

variable {m : SEIRModel} {S E I : List ℚ} {N i : ℕ}

theorem rateS_getD (hS : S.length = N) (hpop : m.population.length = N)
    (hM : m.infectivity_matrix.length = N) (hi : i < N) :
    (rateS m S I).getD i 0 = -(S.getD i 0 / m.population.getD i 0) *
      (List.zipWith (· * ·) (m.infectivity_matrix.getD i []) I).sum := by
  simp only [rateS]
  rw [getD_zipWith (by simp [List.length_zipWith, hS, hpop]; omega)
      (by simp [length_matVec, hM]; omega),
    getD_zipWith (by omega) (by omega), getD_matVec (by omega)]

theorem rateE_getD (hS : S.length = N) (hE : E.length = N)
    (hpop : m.population.length = N) (hM : m.infectivity_matrix.length = N)
    (hinc : m.incubation_period.length = N) (hi : i < N) :
    (rateE m S E I).getD i 0 =
      -(rateS m S I).getD i 0 - E.getD i 0 / m.incubation_period.getD i 0 := by
  simp only [rateE]
  rw [getD_zipWith (by rw [length_rateS (I := I) hS hpop hM]; omega)
      (by simp [List.length_zipWith, hE, hinc]; omega),
    getD_zipWith (by omega) (by omega)]

theorem rateI_getD (hE : E.length = N) (hI : I.length = N)
    (hinc : m.incubation_period.length = N)
    (hinf : m.infectious_period.length = N) (hi : i < N) :
    (rateI m E I).getD i 0 = E.getD i 0 / m.incubation_period.getD i 0 -
      I.getD i 0 / m.infectious_period.getD i 0 := by
  simp only [rateI]
  rw [getD_zipWith (by simp [List.length_zipWith, hE, hinc]; omega)
      (by simp [List.length_zipWith, hI, hinf]; omega),
    getD_zipWith (by omega) (by omega), getD_zipWith (by omega) (by omega)]

theorem rateR_getD (hI : I.length = N) (hinf : m.infectious_period.length = N)
    (hi : i < N) :
    (rateR m I).getD i 0 = I.getD i 0 / m.infectious_period.getD i 0 := by
  simp only [rateR]
  rw [getD_zipWith (by omega) (by omega)]

end RateFormulas

/-- Claim C6: after simulate has produced a solution, querying it with any
ascending time array returns, for every entry with time t below 0, the
initial state Y0 verbatim, and for every entry with t at least 0 the dense
interpolated solution value at that time, in the same order as the query
times. -/
theorem C6_negative_time_queries (Y0 : List ℚ) (sol : ℚ → List ℚ)
    (time : List ℚ) (hsort : time.Sorted (· ≤ ·)) :
    SEIR_solution_query Y0 sol time =
      time.map (fun t => if t < 0 then Y0 else sol t) := by
  induction time with
  | nil => rfl
  | cons t ts ih =>
    obtain ⟨hall, hts⟩ := List.sorted_cons.mp hsort
    by_cases ht : t < 0
    · have hpt : decide (t < 0) = true := by simpa using ht
      have hqt : decide ((0 : ℚ) ≤ t) = false := by
        simp only [decide_eq_false_iff_not, not_le]
        exact ht
      simp only [SEIR_solution_query, List.countP_cons, hpt, if_true,
        List.filter_cons, hqt, List.map_cons, if_pos ht]
      rw [List.replicate_succ]
      exact congrArg (Y0 :: ·) (ih hts)
    · have h0t : (0 : ℚ) ≤ t := not_lt.mp ht
      have hts0 : ∀ s ∈ ts, (0 : ℚ) ≤ s := fun s hs => le_trans h0t (hall s hs)
      have hcnt : (t :: ts).countP (fun s => decide (s < 0)) = 0 := by
        rw [List.countP_eq_zero]
        intro a ha
        simp only [decide_eq_true_eq, not_lt]
        rcases List.mem_cons.mp ha with h | h
        · exact h ▸ h0t
        · exact hts0 a h
      have hfil : (t :: ts).filter (fun s => decide ((0:ℚ) ≤ s)) = t :: ts := by
        rw [List.filter_eq_self]
        intro a ha
        simp only [decide_eq_true_eq]
        rcases List.mem_cons.mp ha with h | h
        · exact h ▸ h0t
        · exact hts0 a h
      simp only [SEIR_solution_query, hcnt, hfil, List.replicate,
        List.nil_append, List.map_cons, if_neg ht]
      congr 1
      exact (List.map_congr_left fun a ha =>
        if_neg (not_lt.mpr (hts0 a ha))).symm

/-- Witness for C6 at a concrete ascending grid with two negative times. -/
theorem C6_witness :
    SEIR_solution_query [(5 : ℚ)] (fun t => [t]) [-2, -1, 0, 1] =
      ([(-2 : ℚ), -1, 0, 1]).map (fun t => if t < 0 then [(5 : ℚ)] else [t]) :=
  C6_negative_time_queries [(5 : ℚ)] (fun t => [t]) [-2, -1, 0, 1] (by decide)

/-- Claim C7: with no restriction function and no imported-cases function
configured, the derivative law returns, for every compartment i of a state
split into the S, E, I, R blocks, dS = -(S_i / population_i) times row i of
the infectivity matrix dotted with the I block, dE = -dS minus
E_i / incubation_period_i, dI = E_i / incubation_period_i minus
I_i / infectious_period_i, and dR = I_i / infectious_period_i. -/
theorem C7_derivative_law (m : SEIRModel) (t : ℚ) (S E I R : List ℚ) (N : ℕ)
    (hS : S.length = N) (hE : E.length = N) (hI : I.length = N)
    (hR : R.length = N) (hpop : m.population.length = N)
    (hinc : m.incubation_period.length = N)
    (hinf : m.infectious_period.length = N)
    (hM : m.infectivity_matrix.length = N)
    (hres : m.restrictions_function = none)
    (himp : m.imported_cases_function = none) (i : ℕ) (hi : i < N) :
    ∃ d, SEIR_call m t (S ++ E ++ I ++ R) = .ok d ∧
      d.getD i 0 = -(S.getD i 0 / m.population.getD i 0) *
        (List.zipWith (· * ·) (m.infectivity_matrix.getD i []) I).sum ∧
      d.getD (N + i) 0 =
        -(d.getD i 0) - E.getD i 0 / m.incubation_period.getD i 0 ∧
      d.getD (2 * N + i) 0 = E.getD i 0 / m.incubation_period.getD i 0 -
        I.getD i 0 / m.infectious_period.getD i 0 ∧
      d.getD (3 * N + i) 0 = I.getD i 0 / m.infectious_period.getD i 0 := by
  have lS : (rateS m S I).length = N := length_rateS hS hpop hM
  have lE : (rateE m S E I).length = N := length_rateE hS hE hpop hM hinc
  have lI : (rateI m E I).length = N := length_rateI hE hI hinc hinf
  refine ⟨_, SEIR_call_closed hS hE hI hR hres himp, ?_, ?_, ?_, ?_⟩
  · rw [getD_concat4_0 lS hi, rateS_getD hS hpop hM hi]
  · rw [getD_concat4_1 lS lE hi, getD_concat4_0 lS hi,
      rateE_getD hS hE hpop hM hinc hi]
  · rw [getD_concat4_2 lS lE lI hi, rateI_getD hE hI hinc hinf hi]
  · rw [getD_concat4_3 lS lE lI hi, rateR_getD hI hinf hi]

/-- Witness for C7 at the concrete base model and state S=6, E=8, I=10,
R=0, where the rates are -90, 88, 0 and 2. -/
theorem C7_witness :
    ∃ d, SEIR_call m7c 0 ([(6 : ℚ)] ++ [8] ++ [10] ++ [0]) = .ok d ∧
      d.getD 0 0 = -(([(6 : ℚ)]).getD 0 0 / m7c.population.getD 0 0) *
        (List.zipWith (· * ·) (m7c.infectivity_matrix.getD 0 []) [10]).sum ∧
      d.getD (1 + 0) 0 =
        -(d.getD 0 0) - ([(8 : ℚ)]).getD 0 0 / m7c.incubation_period.getD 0 0 ∧
      d.getD (2 * 1 + 0) 0 =
        ([(8 : ℚ)]).getD 0 0 / m7c.incubation_period.getD 0 0 -
        ([(10 : ℚ)]).getD 0 0 / m7c.infectious_period.getD 0 0 ∧
      d.getD (3 * 1 + 0) 0 =
        ([(10 : ℚ)]).getD 0 0 / m7c.infectious_period.getD 0 0 :=
  C7_derivative_law m7c 0 [6] [8] [10] [0] 1 rfl rfl rfl rfl rfl rfl rfl rfl
    rfl rfl 0 (by norm_num)

/-- Claim C8: without an imported-cases function the four rate components
sum to zero per compartment, so S+E+I+R is conserved by the closed
dynamics; with an imported-cases function configured, its three vectors are
added to the S, E, I rates with no compensating subtraction, so the
per-compartment sum of the four rates equals the injected total. -/
theorem C8_mass_conservation (m : SEIRModel) (t : ℚ)
    (S E I R DS DE DI : List ℚ) (N : ℕ)
    (f : ℚ → List ℚ × List ℚ × List ℚ)
    (hS : S.length = N) (hE : E.length = N) (hI : I.length = N)
    (hR : R.length = N) (hpop : m.population.length = N)
    (hinc : m.incubation_period.length = N)
    (hinf : m.infectious_period.length = N)
    (hM : m.infectivity_matrix.length = N)
    (hres : m.restrictions_function = none)
    (himp : m.imported_cases_function = some f)
    (hft : f t = (DS, DE, DI)) (hDS : DS.length = N) (hDE : DE.length = N)
    (hDI : DI.length = N) (i : ℕ) (hi : i < N) :
    (∃ d, SEIR_call { m with imported_cases_function := none } t
        (S ++ E ++ I ++ R) = .ok d ∧
      d.getD i 0 + d.getD (N + i) 0 + d.getD (2 * N + i) 0 +
        d.getD (3 * N + i) 0 = 0) ∧
    (∃ d, SEIR_call m t (S ++ E ++ I ++ R) = .ok d ∧
      d.getD i 0 + d.getD (N + i) 0 + d.getD (2 * N + i) 0 +
        d.getD (3 * N + i) 0 = DS.getD i 0 + DE.getD i 0 + DI.getD i 0) := by
  have lS : (rateS m S I).length = N := length_rateS hS hpop hM
  have lE : (rateE m S E I).length = N := length_rateE hS hE hpop hM hinc
  have lI : (rateI m E I).length = N := length_rateI hE hI hinc hinf
  constructor
  · refine ⟨_, SEIR_call_closed (m := { m with imported_cases_function := none })
      hS hE hI hR (by simp [hres]) rfl, ?_⟩
    have hpop' : ({ m with imported_cases_function := none } : SEIRModel).population.length = N := hpop
    have hM' : ({ m with imported_cases_function := none } : SEIRModel).infectivity_matrix.length = N := hM
    have hinc' : ({ m with imported_cases_function := none } : SEIRModel).incubation_period.length = N := hinc
    have hinf' : ({ m with imported_cases_function := none } : SEIRModel).infectious_period.length = N := hinf
    have lS' := length_rateS (I := I) hS hpop' hM'
    have lE' := length_rateE (I := I) hS hE hpop' hM' hinc'
    have lI' := length_rateI (m := { m with imported_cases_function := none })
      hE hI hinc' hinf'
    rw [getD_concat4_0 lS' hi, getD_concat4_1 lS' lE' hi,
      getD_concat4_2 lS' lE' lI' hi, getD_concat4_3 lS' lE' lI' hi,
      rateS_getD hS hpop' hM' hi, rateE_getD hS hE hpop' hM' hinc' hi,
      rateI_getD hE hI hinc' hinf' hi, rateR_getD hI hinf' hi,
      rateS_getD hS hpop' hM' hi]
    ring
  · have lSD : (List.zipWith (· + ·) (rateS m S I) DS).length = N := by
      simp [List.length_zipWith, lS, hDS]
    have lED : (List.zipWith (· + ·) (rateE m S E I) DE).length = N := by
      simp [List.length_zipWith, lE, hDE]
    have lID : (List.zipWith (· + ·) (rateI m E I) DI).length = N := by
      simp [List.length_zipWith, lI, hDI]
    have e1 : (List.zipWith (· + ·) (rateS m S I) DS).getD i 0 =
        (rateS m S I).getD i 0 + DS.getD i 0 :=
      getD_zipWith (by rw [lS]; exact hi) (by rw [hDS]; exact hi)
    have e2 : (List.zipWith (· + ·) (rateE m S E I) DE).getD i 0 =
        (rateE m S E I).getD i 0 + DE.getD i 0 :=
      getD_zipWith (by rw [lE]; exact hi) (by rw [hDE]; exact hi)
    have e3 : (List.zipWith (· + ·) (rateI m E I) DI).getD i 0 =
        (rateI m E I).getD i 0 + DI.getD i 0 :=
      getD_zipWith (by rw [lI]; exact hi) (by rw [hDI]; exact hi)
    refine ⟨_, SEIR_call_imported hS hE hI hR hres himp hft, ?_⟩
    rw [getD_concat4_0 lSD hi, getD_concat4_1 lSD lED hi,
      getD_concat4_2 lSD lED lID hi, getD_concat4_3 lSD lED lID hi,
      e1, e2, e3,
      rateS_getD hS hpop hM hi, rateE_getD hS hE hpop hM hinc hi,
      rateI_getD hE hI hinc hinf hi, rateR_getD hI hinf hi,
      rateS_getD hS hpop hM hi]
    ring

/-- Witness for C8 at the base model with the concrete imported-cases
function: the closed rates sum to 0 and the open rates sum to 600. -/
theorem C8_witness :
    (∃ d, SEIR_call { m8c with imported_cases_function := none } 0
        ([(6 : ℚ)] ++ [8] ++ [10] ++ [0]) = .ok d ∧
      d.getD 0 0 + d.getD (1 + 0) 0 + d.getD (2 * 1 + 0) 0 +
        d.getD (3 * 1 + 0) 0 = 0) ∧
    (∃ d, SEIR_call m8c 0 ([(6 : ℚ)] ++ [8] ++ [10] ++ [0]) = .ok d ∧
      d.getD 0 0 + d.getD (1 + 0) 0 + d.getD (2 * 1 + 0) 0 +
        d.getD (3 * 1 + 0) 0 =
        ([(100 : ℚ)]).getD 0 0 + ([(200 : ℚ)]).getD 0 0 +
          ([(300 : ℚ)]).getD 0 0) :=
  C8_mass_conservation m8c 0 [6] [8] [10] [0] [100] [200] [300] 1 f8c
    rfl rfl rfl rfl rfl rfl rfl rfl rfl rfl rfl rfl rfl rfl 0 (by norm_num)

/-- Claim C2 evaluated at its failing input: with a restriction function
configured that returns 0 at every time, the derivative law does not apply
the output as a Hadamard multiplier to the infectivity matrix; it raises
NameError, because the source reads the bare name restrictions_function
instead of the attribute, and no such global exists. -/
theorem C2_restriction_raises_name_error :
    SEIR_call m2c 1 [6, 8, 10, 0] = .error .nameError := rfl

/-- Claim C1 evaluated at its failing input: in the C1 scenario, where E is
identically 0 and I identically 1, the active-ICU series computed by the
source is the I-block flow convolved with the hospitalization window of
width 3, giving 2, 3, 3, 3, 2, while the construction stated by the claim
(boxcar of width icu_duration = 1 over icu_probability times
E(t - icu_lag) / incubation_period) is identically zero. -/
theorem C1_icu_window_reuse :
    (evaluate_solution m1c Y01c sol1c time1c).ICU_active_cases =
      [[2], [3], [3], [3], [2]] ∧
    icu_active_claim m1c Y01c sol1c time1c = [[0], [0], [0], [0], [0]] := by
  constructor <;> with_unfolding_all rfl

/-- Counterexample to claim C3 as stated: constructing a two-compartment
model with a hospitalization-duration vector of length 3 does not fail with
a configuration error; construction succeeds and stores the length-3 vector
verbatim. -/
theorem C3_counterexample :
    Except.map (fun m => m.hospitalization_duration) (SEIR_init args3c) =
      Except.ok (PyVal.array [1, 2, 3]) := by
  with_unfolding_all rfl

/-- Claim C3 amended: incubation_period, infectious_period, the three
probabilities and population are normalized through _fix_size at
construction: a scalar input is stored as its length-N broadcast vector, a
vector input of length N is stored verbatim, and a vector input whose
length differs from N makes construction fail with the assertion error (a
scalar population additionally asserts N = 1); the durations and the lags
are stored exactly as given, with no broadcast and no length validation. -/
theorem C3_amended_normalization (a : InitArgs) :
    (∀ m, SEIR_init a = .ok m →
      m.num_compartments = init_num_compartments a ∧
      (∀ x, a.incubation_period = .scalar x →
        m.incubation_period = List.replicate m.num_compartments x) ∧
      (∀ xs, a.incubation_period = .array xs → m.incubation_period = xs) ∧
      m.incubation_period.length = m.num_compartments ∧
      (∀ x, a.infectious_period = .scalar x →
        m.infectious_period = List.replicate m.num_compartments x) ∧
      (∀ xs, a.infectious_period = .array xs → m.infectious_period = xs) ∧
      m.infectious_period.length = m.num_compartments ∧
      (∀ x, a.hospitalization_probability = .scalar x →
        m.hospitalization_probability = List.replicate m.num_compartments x) ∧
      (∀ xs, a.hospitalization_probability = .array xs →
        m.hospitalization_probability = xs) ∧
      m.hospitalization_probability.length = m.num_compartments ∧
      (∀ x, a.icu_probability = .scalar x →
        m.icu_probability = List.replicate m.num_compartments x) ∧
      (∀ xs, a.icu_probability = .array xs → m.icu_probability = xs) ∧
      m.icu_probability.length = m.num_compartments ∧
      (∀ x, a.death_probability = .scalar x →
        m.death_probability = List.replicate m.num_compartments x) ∧
      (∀ xs, a.death_probability = .array xs → m.death_probability = xs) ∧
      m.death_probability.length = m.num_compartments ∧
      (∀ x, a.population = .scalar x →
        m.population = List.replicate m.num_compartments x ∧
        m.num_compartments = 1) ∧
      (∀ xs, a.population = .array xs → m.population = xs) ∧
      m.population.length = m.num_compartments ∧
      m.hospitalization_duration = a.hospitalization_duration ∧
      m.hospitalization_lag_from_onset = a.hospitalization_lag_from_onset ∧
      m.icu_duration = a.icu_duration ∧
      m.icu_lag_from_onset = a.icu_lag_from_onset ∧
      m.death_lag_from_onset = a.death_lag_from_onset) ∧
    (∀ xs, a.incubation_period = .array xs →
      xs.length ≠ init_num_compartments a →
      SEIR_init a = .error .assertionError) ∧
    (∀ xs, a.infectious_period = .array xs →
      xs.length ≠ init_num_compartments a →
      SEIR_init a = .error .assertionError) ∧
    (∀ xs, a.hospitalization_probability = .array xs →
      xs.length ≠ init_num_compartments a →
      SEIR_init a = .error .assertionError) ∧
    (∀ xs, a.icu_probability = .array xs →
      xs.length ≠ init_num_compartments a →
      SEIR_init a = .error .assertionError) ∧
    (∀ xs, a.death_probability = .array xs →
      xs.length ≠ init_num_compartments a →
      SEIR_init a = .error .assertionError) ∧
    (∀ xs, a.population = .array xs →
      xs.length ≠ init_num_compartments a →
      SEIR_init a = .error .assertionError) ∧
    (∀ x, a.population = .scalar x → init_num_compartments a ≠ 1 →
      SEIR_init a = .error .assertionError) := by
  refine ⟨?_, ?_, ?_, ?_, ?_, ?_, ?_, ?_⟩
  · intro m h
    simp only [SEIR_init, except_bind_ok] at h
    obtain ⟨incub, hincub, infec, hinfec, hp, hhp, ip, hip, dp, hdp, u, hu,
      pop, hpop, C, hC, hrec⟩ := h
    cases Except.ok.inj hrec
    refine ⟨rfl, ?_, ?_, fix_size_ok_length hincub, ?_, ?_,
      fix_size_ok_length hinfec, ?_, ?_, fix_size_ok_length hhp, ?_, ?_,
      fix_size_ok_length hip, ?_, ?_, fix_size_ok_length hdp, ?_, ?_,
      fix_size_ok_length hpop, rfl, rfl, rfl, rfl, rfl⟩
    · intro x hx
      rw [hx, fix_size_scalar] at hincub
      exact (Except.ok.inj hincub).symm
    · intro xs hx
      rw [hx] at hincub
      exact fix_size_array_ok hincub
    · intro x hx
      rw [hx, fix_size_scalar] at hinfec
      exact (Except.ok.inj hinfec).symm
    · intro xs hx
      rw [hx] at hinfec
      exact fix_size_array_ok hinfec
    · intro x hx
      rw [hx, fix_size_scalar] at hhp
      exact (Except.ok.inj hhp).symm
    · intro xs hx
      rw [hx] at hhp
      exact fix_size_array_ok hhp
    · intro x hx
      rw [hx, fix_size_scalar] at hip
      exact (Except.ok.inj hip).symm
    · intro xs hx
      rw [hx] at hip
      exact fix_size_array_ok hip
    · intro x hx
      rw [hx, fix_size_scalar] at hdp
      exact (Except.ok.inj hdp).symm
    · intro xs hx
      rw [hx] at hdp
      exact fix_size_array_ok hdp
    · intro x hx
      refine ⟨?_, ?_⟩
      · rw [hx, fix_size_scalar] at hpop
        exact (Except.ok.inj hpop).symm
      · rw [hx] at hu
        dsimp only at hu
        split at hu
        · assumption
        · cases hu
    · intro xs hx
      rw [hx] at hpop
      exact fix_size_array_ok hpop
  · intro xs hx hlen
    simp only [SEIR_init]
    exact bind_error_of_eq (by rw [hx]; exact fix_size_array_ne hlen)
  · intro xs hx hlen
    simp only [SEIR_init]
    refine fix_size_bind_error fun incub _ => ?_
    exact bind_error_of_eq (by rw [hx]; exact fix_size_array_ne hlen)
  · intro xs hx hlen
    simp only [SEIR_init]
    refine fix_size_bind_error fun incub _ => ?_
    refine fix_size_bind_error fun infec _ => ?_
    exact bind_error_of_eq (by rw [hx]; exact fix_size_array_ne hlen)
  · intro xs hx hlen
    simp only [SEIR_init]
    refine fix_size_bind_error fun incub _ => ?_
    refine fix_size_bind_error fun infec _ => ?_
    refine fix_size_bind_error fun hp _ => ?_
    exact bind_error_of_eq (by rw [hx]; exact fix_size_array_ne hlen)
  · intro xs hx hlen
    simp only [SEIR_init]
    refine fix_size_bind_error fun incub _ => ?_
    refine fix_size_bind_error fun infec _ => ?_
    refine fix_size_bind_error fun hp _ => ?_
    refine fix_size_bind_error fun ip _ => ?_
    exact bind_error_of_eq (by rw [hx]; exact fix_size_array_ne hlen)
  · intro xs hx hlen
    simp only [SEIR_init]
    refine fix_size_bind_error fun incub _ => ?_
    refine fix_size_bind_error fun infec _ => ?_
    refine fix_size_bind_error fun hp _ => ?_
    refine fix_size_bind_error fun ip _ => ?_
    refine fix_size_bind_error fun dp _ => ?_
    refine bind_error_of_eq ?_
    rw [hx]
    dsimp only
    exact if_neg hlen
  · intro x hx hlen
    simp only [SEIR_init]
    refine fix_size_bind_error fun incub _ => ?_
    refine fix_size_bind_error fun infec _ => ?_
    refine fix_size_bind_error fun hp _ => ?_
    refine fix_size_bind_error fun ip _ => ?_
    refine fix_size_bind_error fun dp _ => ?_
    refine bind_error_of_eq ?_
    rw [hx]
    dsimp only
    exact if_neg hlen

/-- Witness for the amended C3: the scalar one-compartment configuration
stores the broadcast incubation vector, and the same configuration with a
length-3 incubation vector fails construction with the assertion error. -/
theorem C3_witness :
    mWc.incubation_period = List.replicate mWc.num_compartments 3 ∧
    SEIR_init args3f = .error .assertionError :=
  ⟨(((C3_amended_normalization argsWc).1 mWc (by with_unfolding_all rfl)).2.1)
      3 rfl,
   ((C3_amended_normalization args3f).2.1) [1, 2, 3] rfl
      (by norm_num [args3f, init_num_compartments])⟩

/-- Claim C4 evaluated at its failing input: supplying a valid all-ones
2 by 2 contact matrix for a two-compartment model does not yield an
accepted construction; the truthiness test on a multi-element numpy array
raises the ambiguous-truth-value ValueError before any shape check runs. -/
theorem C4_contact_matrix_truthiness :
    SEIR_init args4c = .error .valueError := by
  with_unfolding_all rfl

/-- Claim C5 evaluated at its failing input: passing the susceptible,
exposed and infected populations as raw scalar counts (probabilities flag
false) does not produce an initial state; the source calls the nonexistent
method _fix_sizes and raises AttributeError. -/
theorem C5_raw_scalar_counts_attribute_error :
    set_initial_state mWc (.scalar 1000) (.scalar 0) (.scalar 0) false =
      .error .attributeError := by
  with_unfolding_all rfl

/-- Counterexample to claim C9 as stated: with per-compartment infectious
periods 1 and 2, unit R0, unit populations and the all-ones contact
matrix, the infectivity matrix is [[1/2, 1/4], [1/2, 1/4]], which is not a
single scalar multiple of the all-ones contact matrix. -/
theorem C9_counterexample :
    ¬ ∃ c : ℚ, compute_infectivity_matrix [1, 2] 1 [1, 1] [[1, 1], [1, 1]] =
      [[c, c], [c, c]] := by
  rintro ⟨c, h⟩
  have hval : compute_infectivity_matrix [1, 2] 1 [1, 1] [[1, 1], [1, 1]] =
      [[1 / 2, 1 / 4], [1 / 2, 1 / 4]] := by with_unfolding_all rfl
  rw [hval] at h
  simp only [List.cons.injEq] at h
  obtain ⟨⟨h1, h2, -⟩, -⟩ := h
  rw [← h1] at h2
  norm_num at h2

/-- Claim C9 amended: every entry i j of the infectivity matrix is the
contact entry scaled by a per-column factor
1 / infectious_period_j * R0 * population.sum / (population @ C).sum; the
factor is one common scalar only when the infectious period is uniform
across compartments, for example when it was given as a scalar. -/
theorem C9_amended_column_scaling (ip : List ℚ) (R0 : ℚ) (pop : List ℚ)
    (C : List (List ℚ)) (i j : ℕ) (hi : i < C.length) (hj : j < ip.length)
    (hjr : j < (C.getD i []).length) :
    ((compute_infectivity_matrix ip R0 pop C).getD i []).getD j 0 =
      1 / ip.getD j 0 * R0 * pop.sum / (npVecMat pop C).sum *
        (C.getD i []).getD j 0 := by
  have hmap : (compute_infectivity_matrix ip R0 pop C).getD i [] =
      List.zipWith (· * ·)
        (ip.map (fun tau => 1 / tau * R0 * pop.sum / (npVecMat pop C).sum))
        (C.getD i []) := by
    simp only [compute_infectivity_matrix]
    exact getD_map_of_lt _ C [] [] i hi
  have hz : (List.zipWith (· * ·)
      (ip.map (fun tau => 1 / tau * R0 * pop.sum / (npVecMat pop C).sum))
      (C.getD i [])).getD j 0 =
      (ip.map (fun tau =>
        1 / tau * R0 * pop.sum / (npVecMat pop C).sum)).getD j 0 *
      (C.getD i []).getD j 0 :=
    getD_zipWith (by simpa using hj) hjr
  rw [hmap, hz, getD_map_of_lt _ ip 0 0 j hj]

/-- Witness for the amended C9 at the counterexample configuration, at
entry 0 1. -/
theorem C9_witness :
    ((compute_infectivity_matrix [1, 2] 1 [1, 1] [[1, 1], [1, 1]]).getD 0
        []).getD 1 0 =
      1 / (([1, 2] : List ℚ).getD 1 0) * 1 * ([(1 : ℚ), 1]).sum /
        (npVecMat [1, 1] [[1, 1], [1, 1]]).sum *
        ((([[1, 1], [1, 1]] : List (List ℚ)).getD 0 []).getD 1 0) :=
  C9_amended_column_scaling [1, 2] 1 [1, 1] [[1, 1], [1, 1]] 0 1
    (by norm_num) (by norm_num) (by norm_num [List.getD_cons_succ])

/-- The first row of a cumulative sum is the first row of the input. -/
theorem cumsumRows_get?_zero (A : List (List ℚ)) :
    (cumsumRows A).get? 0 = A.get? 0 := by
  cases A with
  | nil => rfl
  | cons r rs => rfl

/-- If the first query time is negative, the first row returned by the
solution closure is the initial state. -/
theorem SEIR_solution_query_get?_zero (Y0 : List ℚ) (sol : ℚ → List ℚ)
    (time : List ℚ) (t0 : ℚ) (h0 : time.get? 0 = some t0) (ht : t0 < 0) :
    (SEIR_solution_query Y0 sol time).get? 0 = some Y0 := by
  cases time with
  | nil => simp at h0
  | cons t ts =>
    have hte : t = t0 := by simpa using h0
    subst hte
    have hpt : decide (t < 0) = true := by simpa using ht
    simp [SEIR_solution_query, List.countP_cons, hpt, List.replicate_succ]

/-- The head of the lagged query grid of the C10 scenario is -27. -/
theorem time10c_death_lag_head :
    (time10c.map (fun t => t - m10c.death_lag_from_onset)).get? 0 =
      some (-27) := by
  with_unfolding_all rfl

/-- For every dense solution, the day-0 entry of the cumulative-death
series of the C10 scenario equals 500/3. -/
theorem deaths_day0_value (sol : ℚ → List ℚ) :
    (evaluate_solution m10c Y010c sol time10c).deaths.get? 0 =
      some [500 / 3] := by
  simp only [evaluate_solution]
  rw [cumsumRows_get?_zero, List.get?_map, List.get?_map,
    SEIR_solution_query_get?_zero Y010c sol _ (-27) time10c_death_lag_head
      (by norm_num)]
  show some (rowMulDiv m10c.death_probability m10c.incubation_period
    (splitBlock 1 Y010c)) = some [500 / 3]
  with_unfolding_all rfl

/-- Claim C10 amended: in the end-to-end example configuration, for every
dense solution produced by the integrator, evaluating on the ascending
daily grid from t = 0 returns cumulative deaths at day 0 equal to
death_probability times E0 / incubation_period = 500/3 per compartment,
not 0, because the day-0 death term queries t = -27 and receives the
seeded initial state with E0 = 5000. -/
theorem C10_day0_deaths (sol : ℚ → List ℚ) :
    (evaluate_solution m10c Y010c sol time10c).deaths.get? 0 =
      some [500 / 3] :=
  deaths_day0_value sol

/-- Counterexample to claim C10 as stated: with a concrete dense solution,
the cumulative deaths at day 0 are not 0. -/
theorem C10_counterexample :
    (evaluate_solution m10c Y010c sol10c time10c).deaths.get? 0 ≠
      some [(0 : ℚ)] := by
  rw [deaths_day0_value sol10c]
  intro h
  simp only [Option.some.injEq, List.cons.injEq] at h
  norm_num at h

/-- Witness for the amended C10 at the concrete constant dense solution. -/
theorem C10_witness :
    (evaluate_solution m10c Y010c sol10c time10c).deaths.get? 0 =
      some [500 / 3] :=
  C10_day0_deaths sol10c
